import Mathlib

/-
Verification development for the resilient-LLM-inference demo scripts.

The repository consists of Python demo scripts (demo_cris.py,
demo_account_sharding.py, demo_load_balancing.py) that dispatch a batch of
probe calls against an external inference endpoint, collect per-call
outcomes, compute summary statistics, and poll CloudWatch Logs Insights
with a bounded retry schedule.  This file is a shallow embedding of the
pure decision logic of those scripts: the network is replaced by an
explicit outcome oracle, wall-clock sleeps and logging are dropped, and
Python float arithmetic over the small latency values is modelled in the
rationals.  Each definition is translated directly from the corresponding
Python function, whose name it keeps.
-/

namespace ResilientLLM

/-- List-level check that the list pat occurs at the head of the second
list, mirroring the character-by-character comparison that Python string
containment performs at one offset. -/
def headMatch : List Char → List Char → Bool
  | [], _ => true
  | _ :: _, [] => false
  | p :: ps, c :: cs => p == c && headMatch ps cs

/-- The pattern occurs somewhere inside the list, as in the Python
expression pat in s. -/
def hasSubList (pat : List Char) : List Char → Bool
  | [] => headMatch pat []
  | c :: cs => headMatch pat (c :: cs) || hasSubList pat cs

/-- Python substring containment test: pat in s. -/
def strContainsSub (s pat : String) : Bool :=
  hasSubList pat.toList s.toList

/-- The outcome the external Bedrock or proxy call hands back to a worker:
either a successful response with a latency and a body, or a raised
exception carrying an error message string. -/
inductive CallOutcome where
  | success (responseTime : ℚ) (content : String)
  | failure (errorMsg : String)

/-- Result dictionary built by send_bedrock_request in demo_cris.py
(lines 252-259 and 285-292). -/
structure ProbeResult where
  request_id : Nat
  success : Bool
  model_used : Option String
  response_time : ℚ
  error : Option String
deriving DecidableEq, Repr

/-- Result dictionary built by send_bedrock_request in
demo_account_sharding.py (lines 236-245 and 262-271); it additionally
records the profile and account label of the worker. -/
structure ShardProbeResult where
  request_id : Nat
  success : Bool
  account_type : String
  profile : String
  model_used : Option String
  response_time : ℚ
  error : Option String
deriving DecidableEq, Repr

/-- Result dictionary built by send_request in demo_load_balancing.py
(lines 128-133 and 137-143).  In that script model_used is a plain string
in both branches; the failure branch stores the literal string error, so
the field is modelled as Option String with none reserved for a Python
None that this script in fact never produces. -/
structure LBResult where
  request_id : Nat
  success : Bool
  model_used : Option String
  response_time : ℚ
  error : Option String
deriving DecidableEq, Repr

/-- Error-kind classification of the exception message in the failure
branch of send_bedrock_request in demo_cris.py (lines 262-283): the
error_type stored in the result is ThrottlingException when the message
contains ThrottlingException or ServiceQuota, and the generic string Error
otherwise. -/
def classify_error_cris (errorMsg : String) : String :=
  if strContainsSub errorMsg "ThrottlingException" || strContainsSub errorMsg "ServiceQuota" then
    "ThrottlingException"
  else
    "Error"

/-- The sanitized label demo_cris.py computes for its log line in the
non-throttled branch (lines 270-277).  It feeds only the console output,
never the stored result. -/
def sanitized_error_cris (errorMsg : String) : String :=
  if strContainsSub errorMsg "ValidationException" then "Validation Error"
  else if strContainsSub errorMsg "AccessDenied" then "Access Denied"
  else if strContainsSub errorMsg "ResourceNotFound" then "Resource Not Found"
  else "API Error"

/-- Error-kind classification in demo_account_sharding.py (lines 247-260):
identical throttling test, and every other message is the generic Error. -/
def classify_error_shard (errorMsg : String) : String :=
  if strContainsSub errorMsg "ThrottlingException" || strContainsSub errorMsg "ServiceQuota" then
    "ThrottlingException"
  else
    "Error"

/-- send_bedrock_request of demo_cris.py (lines 214-292) with the network
call replaced by its outcome.  The success branch records the model id and
latency; the failure branch records success false, zero latency, no model
and the classified error kind. -/
def send_bedrock_request (request_id : Nat) (model_id : String)
    (outcome : CallOutcome) : ProbeResult :=
  match outcome with
  | .success t _content =>
      { request_id := request_id
        success := true
        model_used := some model_id
        response_time := t
        error := none }
  | .failure msg =>
      { request_id := request_id
        success := false
        model_used := none
        response_time := 0
        error := some (classify_error_cris msg) }

/-- send_bedrock_request of demo_account_sharding.py (lines 200-271) with
the network call replaced by its outcome. -/
def send_bedrock_request_shard (request_id : Nat) (model_id : String)
    (profile_name account_type : String) (outcome : CallOutcome) : ShardProbeResult :=
  match outcome with
  | .success t _content =>
      { request_id := request_id
        success := true
        account_type := account_type
        profile := profile_name
        model_used := some model_id
        response_time := t
        error := none }
  | .failure msg =>
      { request_id := request_id
        success := false
        account_type := account_type
        profile := profile_name
        model_used := none
        response_time := 0
        error := some (classify_error_shard msg) }

/-- send_request of demo_load_balancing.py (lines 101-143) with the proxy
call replaced by its outcome.  On success the responding model string is
recorded; on failure the script stores the literal string error in
model_used, zero response time and the raw message in the error field. -/
def send_request_lb (request_id : Nat) (outcome : CallOutcome)
    (modelOfResponse : String) : LBResult :=
  match outcome with
  | .success t _content =>
      { request_id := request_id
        success := true
        model_used := some modelOfResponse
        response_time := t
        error := none }
  | .failure msg =>
      { request_id := request_id
        success := false
        model_used := some "error"
        response_time := 0
        error := some msg }

/-- The five fixed prompts of demo_cris.py (lines 313-319); only their
count matters to the logic, which indexes them modulo their length. -/
def questionsCris : List String :=
  ["Hello from CRIS request!",
   "Test message for cross-region demo",
   "CRIS demo request",
   "Cross-region test message",
   "Regional distribution test"]

/-- questions in the list indexed round-robin, as in
questions.get with req_id modulo len of questions. -/
def questionFor (qs : List String) (req_id : Nat) : String :=
  qs.getD (req_id % qs.length) ""

/-- The worker body plus dispatch loop of run_cris_demo (demo_cris.py
lines 326-338): worker i sends request i+1 and appends exactly one result,
whether the call succeeded or failed.  The completion order of the
concurrent workers is arbitrary, so downstream claims quantify over any
permutation of this list. -/
def run_cris_dispatch (num_requests : Nat) (model_id : String)
    (outcomes : Nat → CallOutcome) : List ProbeResult :=
  (List.range num_requests).map fun i =>
    send_bedrock_request (i + 1) model_id (outcomes i)

/-- The three distribution strategies of demo_account_sharding.py. -/
inductive Strategy where
  | roundRobin
  | split
  | rand
deriving DecidableEq, Repr

/-- Account choice made inside worker in run_cross_account_demo
(demo_account_sharding.py lines 334-343): round-robin takes even ids,
split takes ids below num_requests integer-divided by two, and random
consults a coin oracle. -/
def usePrimary (strategy : Strategy) (num_requests : Nat)
    (coin : Nat → Bool) (req_id : Nat) : Bool :=
  match strategy with
  | .roundRobin => req_id % 2 == 0
  | .split => req_id < num_requests / 2
  | .rand => coin req_id

/-- The worker body plus dispatch loop of run_cross_account_demo
(demo_account_sharding.py lines 331-358): each of the num_requests workers
picks an account by the strategy and appends exactly one result. -/
def run_shard_dispatch (num_requests : Nat) (strategy : Strategy)
    (coin : Nat → Bool) (primary_profile secondary_profile model_id : String)
    (outcomes : Nat → CallOutcome) : List ShardProbeResult :=
  (List.range num_requests).map fun i =>
    let up := usePrimary strategy num_requests coin i
    send_bedrock_request_shard (i + 1) model_id
      (if up then primary_profile else secondary_profile)
      (if up then "ACCOUNT1" else "ACCOUNT2")
      (outcomes i)

/-- Worker-pool size of the cris demo: demo_cris.py line 334 passes
max_workers equal to num_requests, with no ceiling. -/
def cris_max_workers (num_requests : Nat) : Nat :=
  num_requests

/-- Worker-pool size of the sharding demo: demo_account_sharding.py line
354 passes max_workers equal to min of num_requests and 20. -/
def shard_max_workers (num_requests : Nat) : Nat :=
  min num_requests 20

/-- Summary statistics computed by analyze_cris_results (demo_cris.py
lines 353-361 and the returned dictionary at lines 426-433); the
wall-clock total_time field carries no logic and is dropped. -/
structure CrisStats where
  total_requests : Nat
  successful : Nat
  failed : Nat
  success_rate : ℚ
  avg_response_time : ℚ
deriving DecidableEq, Repr

/-- The statistics block of analyze_cris_results (demo_cris.py lines
353-361): success and failure counts by filtering, the success rate as
successful over total times 100 guarded by total positive, and the mean
response time over the successful results guarded by the empty case. -/
def analyze_cris_results (results : List ProbeResult) : CrisStats :=
  let successful := (results.filter (fun r => r.success)).length
  let failed := (results.filter (fun r => !r.success)).length
  let total := results.length
  let success_rate : ℚ :=
    if 0 < total then ((successful : ℚ) / (total : ℚ)) * 100 else 0
  let successful_results := results.filter (fun r => r.success)
  let avg_response_time : ℚ :=
    if successful_results.isEmpty then 0
    else ((successful_results.map (fun r => r.response_time)).sum)
           / (successful_results.length : ℚ)
  { total_requests := total
    successful := successful
    failed := failed
    success_rate := success_rate
    avg_response_time := avg_response_time }

/-- Summary statistics computed by analyze_cross_account_results
(demo_account_sharding.py lines 376-393 and the returned dictionary at
lines 543-551), including the two per-account mean latencies the script
prints in its table. -/
structure ShardStats where
  total_requests : Nat
  successful : Nat
  failed : Nat
  success_rate : ℚ
  primary_requests : Nat
  secondary_requests : Nat
  primary_successful : Nat
  secondary_successful : Nat
  primary_avg_time : ℚ
  secondary_avg_time : ℚ
deriving DecidableEq, Repr

/-- The statistics block of analyze_cross_account_results
(demo_account_sharding.py lines 376-393): the results are split per
account label, counted, the overall success rate is the summed successes
over the total times 100 guarded by total positive, and each account mean
latency sums response times over that account successes and divides by
that account success count, guarded by the zero case. -/
def analyze_cross_account_results (results : List ShardProbeResult) : ShardStats :=
  let primary_results := results.filter (fun r => r.account_type == "ACCOUNT1")
  let secondary_results := results.filter (fun r => r.account_type == "ACCOUNT2")
  let primary_successful := (primary_results.filter (fun r => r.success)).length
  let secondary_successful := (secondary_results.filter (fun r => r.success)).length
  let total := results.length
  let total_successful := primary_successful + secondary_successful
  let success_rate : ℚ :=
    if 0 < total then ((total_successful : ℚ) / (total : ℚ)) * 100 else 0
  let primary_avg_time : ℚ :=
    if primary_successful ≠ 0 then
      (((primary_results.filter (fun r => r.success)).map (fun r => r.response_time)).sum)
        / (primary_successful : ℚ)
    else 0
  let secondary_avg_time : ℚ :=
    if secondary_successful ≠ 0 then
      (((secondary_results.filter (fun r => r.success)).map (fun r => r.response_time)).sum)
        / (secondary_successful : ℚ)
    else 0
  { total_requests := total
    successful := total_successful
    failed := total - total_successful
    success_rate := success_rate
    primary_requests := primary_results.length
    secondary_requests := secondary_results.length
    primary_successful := primary_successful
    secondary_successful := secondary_successful
    primary_avg_time := primary_avg_time
    secondary_avg_time := secondary_avg_time }

/-- A reconciliation snapshot: the region to count mapping parsed by
get_cloudwatch_results, as an association list in region sort order. -/
abbrev RegionDist := List (String × Nat)

/-- total_invocations as computed by get_cloudwatch_results (demo_cris.py
lines 162-176): the sum of the per-region counts of the snapshot. -/
def totalInvocations (snap : RegionDist) : Nat :=
  (snap.map Prod.snd).sum

/-- The break condition of the cris polling loop (demo_cris.py line 398):
the query returned a truthy result whose total_invocations equals the
expected success count.  A query failure or an empty result dictionary is
modelled as none. -/
def crisQueryComplete (expected : Nat) : Option RegionDist → Bool
  | none => false
  | some snap => totalInvocations snap == expected

/-- The attempt loop of analyze_cris_results (demo_cris.py lines 382-405),
parametrised by the oracle giving each attempt its query outcome.  The
state is the cloudwatch_results variable; the function returns its final
value together with the number of attempts executed.  fuel is the number
of loop iterations remaining, five at the top-level call. -/
def crisPollGo (oracle : Nat → Option RegionDist) (expected : Nat) :
    Nat → Nat → Option RegionDist → Option RegionDist × Nat
  | _attempt, 0, cur => (cur, 0)
  | attempt, fuel + 1, _cur =>
      let r := oracle attempt
      if crisQueryComplete expected r then (r, 1)
      else
        let rest := crisPollGo oracle expected (attempt + 1) fuel r
        (rest.1, rest.2 + 1)

/-- The cris reconciliation poller: five attempts starting from attempt
zero with cloudwatch_results initially None (demo_cris.py lines 382-384). -/
def crisPoll (oracle : Nat → Option RegionDist) (expected : Nat) :
    Option RegionDist × Nat :=
  crisPollGo oracle expected 0 5 none

/-- The all_cloudwatch_results accumulator of the sharding poller: the
last stored snapshot for each of the two accounts. -/
structure ShardPollState where
  acc1 : Option RegionDist
  acc2 : Option RegionDist
deriving DecidableEq, Repr

/-- Store rule for one account and one attempt
(demo_account_sharding.py lines 486-489): the dictionary entry is
overwritten only when the query produced a result with a nonempty region
distribution; otherwise the previous entry is kept. -/
def updateSlot (old : Option RegionDist) (r : Option RegionDist) : Option RegionDist :=
  match r with
  | some snap => if snap.isEmpty then old else some snap
  | none => old

/-- got_primary and got_secondary (demo_account_sharding.py lines
494-495): the account entry is present and its total_invocations equals
the expected success count for that account. -/
def slotComplete (expected : Nat) : Option RegionDist → Bool
  | none => false
  | some snap => totalInvocations snap == expected

/-- One iteration body of the sharding attempt loop
(demo_account_sharding.py lines 471-489): an account is queried exactly
when its expected success count is positive, and the store rule is applied
to the answer. -/
def shardAttempt (o1 o2 : Nat → Option RegionDist) (e1 e2 : Nat)
    (attempt : Nat) (st : ShardPollState) : ShardPollState :=
  { acc1 := if 0 < e1 then updateSlot st.acc1 (o1 attempt) else st.acc1
    acc2 := if 0 < e2 then updateSlot st.acc2 (o2 attempt) else st.acc2 }

/-- The break condition of the sharding attempt loop
(demo_account_sharding.py lines 492-498): every account with a positive
expected count has a stored snapshot whose total equals that count. -/
def shardDone (e1 e2 : Nat) (st : ShardPollState) : Bool :=
  (e1 == 0 || slotComplete e1 st.acc1) && (e2 == 0 || slotComplete e2 st.acc2)

/-- The queries submitted during one attempt
(demo_account_sharding.py lines 472-483): account one is queried when its
expected count is positive and likewise account two, with no regard to
whether either account already reached completeness. -/
def attemptQueries (e1 e2 : Nat) (attempt : Nat) : List (Nat × Nat) :=
  (if 0 < e1 then [(attempt, 1)] else []) ++ (if 0 < e2 then [(attempt, 2)] else [])

/-- Outcome of the sharding poller: the final accumulator, the number of
attempts executed, and the trace of submitted queries as pairs of attempt
index and account index. -/
structure ShardPollResult where
  final : ShardPollState
  attemptsExecuted : Nat
  queryTrace : List (Nat × Nat)
deriving DecidableEq, Repr

/-- The attempt loop of analyze_cross_account_results
(demo_account_sharding.py lines 460-508): each iteration queries every
account with positive expected count, applies the store rule, and breaks
when the completeness condition holds; otherwise the next attempt runs
while fuel remains. -/
def shardPollGo (o1 o2 : Nat → Option RegionDist) (e1 e2 : Nat) :
    Nat → Nat → ShardPollState → ShardPollResult
  | _attempt, 0, st => ⟨st, 0, []⟩
  | attempt, fuel + 1, st =>
      let st' := shardAttempt o1 o2 e1 e2 attempt st
      if shardDone e1 e2 st' then ⟨st', 1, attemptQueries e1 e2 attempt⟩
      else
        let rest := shardPollGo o1 o2 e1 e2 (attempt + 1) fuel st'
        ⟨rest.final, rest.attemptsExecuted + 1,
          attemptQueries e1 e2 attempt ++ rest.queryTrace⟩

/-- The sharding reconciliation poller: five attempts starting from
attempt zero with an empty accumulator (demo_account_sharding.py lines
459-460). -/
def shardPoll (o1 o2 : Nat → Option RegionDist) (e1 e2 : Nat) : ShardPollResult :=
  shardPollGo o1 o2 e1 e2 0 5 ⟨none, none⟩

/-- Outcome of a script main after argument parsing: either the process
exits with the given nonzero status before any request is dispatched, or
the demo runs with the validated parameter. -/
inductive CliOutcome where
  | exitWithError (code : Nat)
  | runDemo (param : Int)
deriving DecidableEq, Repr

/-- Validation in main of demo_cris.py (lines 455-470): a request count
below one or above one hundred prints an error and exits with status one;
otherwise run_cris_demo is invoked with the count. -/
def cris_main (requests : Int) : CliOutcome :=
  if requests < 1 then .exitWithError 1
  else if requests > 100 then .exitWithError 1
  else .runDemo requests

/-- Validation in main of demo_account_sharding.py (lines 593-603): the
same request count bounds as the cris script; the strategy flag is an
enumerated argparse choice and reaches this point already valid. -/
def sharding_main (requests : Int) (_strategy : Strategy) : CliOutcome :=
  if requests < 1 then .exitWithError 1
  else if requests > 100 then .exitWithError 1
  else .runDemo requests

/-- Validation in main of demo_load_balancing.py (lines 357-365): in loop
mode an interval below five seconds prints an error and exits with status
one, otherwise the loop runs with the interval; outside loop mode the demo
runs once and the interval is not inspected. -/
def lb_main (loop : Bool) (interval : Int) : CliOutcome :=
  if loop then
    if interval < 5 then .exitWithError 1
    else .runDemo interval
  else .runDemo 0

/-- The four simulated calls of the end-to-end scenario in the spec:
calls one and three succeed on route r1 with latency one second, calls two
and four fail with a throttling error. -/
def scenarioResults : List ProbeResult :=
  [send_bedrock_request 1 "r1" (.success 1 "ok"),
   send_bedrock_request 2 "r1" (.failure "ThrottlingException"),
   send_bedrock_request 3 "r1" (.success 1 "ok"),
   send_bedrock_request 4 "r1" (.failure "ThrottlingException")]

/- Helper lemmas shared by the claim theorems below. -/

/-- A list splits into the results passing a Boolean test and those
failing it. -/
theorem length_filter_split {α : Type} (p : α → Bool) (l : List α) :
    l.length = (l.filter p).length + (l.filter (fun a => !p a)).length := by
  induction l with
  | nil => simp
  | cons x t ih =>
    by_cases hx : p x <;> simp [List.filter_cons, hx, ih] <;> omega

/-- When every collected sharding result carries one of the two account
labels, the per-account success counts computed by the analyzer sum to the
plain success count. -/
theorem shard_success_count_split (l : List ShardProbeResult)
    (h : ∀ r ∈ l, r.account_type = "ACCOUNT1" ∨ r.account_type = "ACCOUNT2") :
    ((l.filter (fun r => r.account_type == "ACCOUNT1")).filter (fun r => r.success)).length
      + ((l.filter (fun r => r.account_type == "ACCOUNT2")).filter (fun r => r.success)).length
      = (l.filter (fun r => r.success)).length := by
  induction l with
  | nil => simp
  | cons x t ih =>
    have hx := h x (by simp)
    have ht := ih (fun r hr => h r (by simp [hr]))
    simp only [List.filter_filter] at ht ⊢
    rcases hx with h1 | h1 <;> by_cases hs : x.success <;>
      simp [List.filter_cons, h1, hs] <;> omega

/-- When every failed result reports zero response time, summing response
times over the whole collection equals summing over the successes only. -/
theorem sum_response_time_filter (l : List ProbeResult)
    (h : ∀ r ∈ l, r.success = false → r.response_time = 0) :
    (l.map (fun r => r.response_time)).sum
      = ((l.filter (fun r => r.success)).map (fun r => r.response_time)).sum := by
  induction l with
  | nil => rfl
  | cons x t ih =>
    have ht := ih (fun r hr hs => h r (by simp [hr]) hs)
    by_cases hx : x.success
    · simp [List.filter_cons, hx, ht]
    · have hz := h x (by simp) (by simpa using hx)
      simp [List.filter_cons, hx, hz, ht]

/-- One-step unfolding of the cris polling loop with positive fuel. -/
theorem crisPollGo_succ (oracle : Nat → Option RegionDist) (expected : Nat)
    (a fuel : Nat) (cur : Option RegionDist) :
    crisPollGo oracle expected a (fuel + 1) cur =
      if crisQueryComplete expected (oracle a) = true then (oracle a, 1)
      else ((crisPollGo oracle expected (a + 1) fuel (oracle a)).1,
            (crisPollGo oracle expected (a + 1) fuel (oracle a)).2 + 1) := rfl

/-- The cris polling loop executes at most as many attempts as it has fuel. -/
theorem crisPollGo_attempts_le (oracle : Nat → Option RegionDist) (expected : Nat)
    (a fuel : Nat) (cur : Option RegionDist) :
    (crisPollGo oracle expected a fuel cur).2 ≤ fuel := by
  induction fuel generalizing a cur with
  | zero => simp [crisPollGo]
  | succ n ih =>
    simp only [crisPollGo]
    split
    · simp
    · simpa using Nat.succ_le_succ (ih (a + 1) (oracle a))

/-- With positive fuel the cris polling loop executes at least one attempt. -/
theorem crisPollGo_attempts_pos (oracle : Nat → Option RegionDist) (expected : Nat)
    (a fuel : Nat) (cur : Option RegionDist) (h : 0 < fuel) :
    0 < (crisPollGo oracle expected a fuel cur).2 := by
  cases fuel with
  | zero => omega
  | succ n =>
    simp only [crisPollGo]
    split <;> simp

/-- When no attempt in the window meets the completeness test, the cris
polling loop runs through its whole fuel and ends holding the snapshot of
the last attempt. -/
theorem crisPollGo_all_incomplete (oracle : Nat → Option RegionDist) (expected : Nat)
    (a m : Nat) (cur : Option RegionDist)
    (h : ∀ j, j < m + 1 → crisQueryComplete expected (oracle (a + j)) = false) :
    crisPollGo oracle expected a (m + 1) cur = (oracle (a + m), m + 1) := by
  induction m generalizing a cur with
  | zero =>
    have h0 := h 0 (by omega)
    simp only [Nat.add_zero] at h0 ⊢
    simp [crisPollGo, h0]
  | succ n ih =>
    have h0 := h 0 (by omega)
    simp only [Nat.add_zero] at h0
    have hrec := ih (a + 1) (oracle a)
      (fun j hj => by
        have := h (j + 1) (by omega)
        rwa [show a + 1 + j = a + (j + 1) by omega])
    rw [show a + 1 + n = a + (n + 1) by omega] at hrec
    rw [crisPollGo_succ, if_neg (by simp [h0]), hrec]

/-- When the first attempt meeting the completeness test is attempt k of
the window, the cris polling loop stops right there, accepting that
snapshot after exactly k plus one attempts. -/
theorem crisPollGo_first_complete (oracle : Nat → Option RegionDist) (expected : Nat)
    (a fuel k : Nat) (cur : Option RegionDist)
    (hk : k < fuel)
    (hinc : ∀ j, j < k → crisQueryComplete expected (oracle (a + j)) = false)
    (hc : crisQueryComplete expected (oracle (a + k)) = true) :
    crisPollGo oracle expected a fuel cur = (oracle (a + k), k + 1) := by
  induction fuel generalizing a k cur with
  | zero => omega
  | succ n ih =>
    cases k with
    | zero =>
      simp only [Nat.add_zero] at hc
      simp [crisPollGo, hc]
    | succ m =>
      have h0 := hinc 0 (by omega)
      simp only [Nat.add_zero] at h0
      have hrec := ih (a + 1) m (oracle a) (by omega)
        (fun j hj => by
          have := hinc (j + 1) (by omega)
          rwa [show a + 1 + j = a + (j + 1) by omega])
        (by rwa [show a + 1 + m = a + (m + 1) by omega])
      simp only [crisPollGo, h0]
      simp [hrec, show a + 1 + m = a + (m + 1) by omega]

/-- While every attempt up to attempt k of the window is incomplete and
fuel remains beyond it, the cris polling loop keeps retrying: it executes
at least k plus two attempts. -/
theorem crisPollGo_retries (oracle : Nat → Option RegionDist) (expected : Nat)
    (a fuel k : Nat) (cur : Option RegionDist)
    (hfuel : k + 1 < fuel)
    (hinc : ∀ j, j ≤ k → crisQueryComplete expected (oracle (a + j)) = false) :
    k + 2 ≤ (crisPollGo oracle expected a fuel cur).2 := by
  induction k generalizing a fuel cur with
  | zero =>
    cases fuel with
    | zero => omega
    | succ n =>
      have h0 := hinc 0 (by omega)
      simp only [Nat.add_zero] at h0
      have hpos := crisPollGo_attempts_pos oracle expected (a + 1) n (oracle a) (by omega)
      simp only [crisPollGo, h0]
      simp only [Bool.false_eq_true, if_false]
      omega
  | succ m ih =>
    cases fuel with
    | zero => omega
    | succ n =>
      have h0 := hinc 0 (by omega)
      simp only [Nat.add_zero] at h0
      have hrec := ih (a + 1) n (oracle a) (by omega)
        (fun j hj => by
          have := hinc (j + 1) (by omega)
          rwa [show a + 1 + j = a + (j + 1) by omega])
      simp only [crisPollGo, h0]
      simp only [Bool.false_eq_true, if_false]
      omega

/-- The sharding polling loop executes at most as many attempts as it has
fuel. -/
theorem shardPollGo_attempts_le (o1 o2 : Nat → Option RegionDist) (e1 e2 : Nat)
    (a fuel : Nat) (st : ShardPollState) :
    (shardPollGo o1 o2 e1 e2 a fuel st).attemptsExecuted ≤ fuel := by
  induction fuel generalizing a st with
  | zero => simp [shardPollGo]
  | succ n ih =>
    simp only [shardPollGo]
    split
    · simp
    · simpa using Nat.succ_le_succ (ih (a + 1) (shardAttempt o1 o2 e1 e2 a st))

/-- Whenever the first expected count is positive, every attempt the
sharding polling loop executes submits a query for account one, with no
regard to whether that account already reached completeness. -/
theorem shardPollGo_queries (o1 o2 : Nat → Option RegionDist) (e1 e2 : Nat)
    (a fuel : Nat) (st : ShardPollState) (k : Nat)
    (hk : k < (shardPollGo o1 o2 e1 e2 a fuel st).attemptsExecuted)
    (he : 0 < e1) :
    (a + k, 1) ∈ (shardPollGo o1 o2 e1 e2 a fuel st).queryTrace := by
  induction fuel generalizing a st k with
  | zero => simp [shardPollGo] at hk
  | succ n ih =>
    by_cases hd : shardDone e1 e2 (shardAttempt o1 o2 e1 e2 a st) = true
    · simp only [shardPollGo, hd, if_true] at hk ⊢
      have hk0 : k = 0 := by omega
      subst hk0
      simp [attemptQueries, he]
    · simp only [shardPollGo, hd] at hk ⊢
      simp only [Bool.false_eq_true, if_false] at hk ⊢
      cases k with
      | zero =>
        simp [attemptQueries, he]
      | succ m =>
        have hm : m < (shardPollGo o1 o2 e1 e2 (a + 1) n
            (shardAttempt o1 o2 e1 e2 a st)).attemptsExecuted := by
          simpa using Nat.lt_of_succ_lt_succ (by simpa using hk)
        have := ih (a + 1) (shardAttempt o1 o2 e1 e2 a st) m hm
        rw [show a + 1 + m = a + (m + 1) by omega] at this
        simp [this]

/-- Claim C1: for every list of collected probe results with S successes
and F failures, the success-rate percentage reported by
analyze_cris_results, and by analyze_cross_account_results on results that
all carry one of the two account labels, equals 100 times S over S plus F,
and equals 0 when S plus F is 0. -/
theorem success_rate_matches_formula (results : List ProbeResult)
    (sresults : List ShardProbeResult)
    (hacc : ∀ r ∈ sresults, r.account_type = "ACCOUNT1" ∨ r.account_type = "ACCOUNT2") :
    ((analyze_cris_results results).success_rate =
      if (results.filter (fun r => r.success)).length
           + (results.filter (fun r => !r.success)).length = 0 then 0
      else 100 * ((results.filter (fun r => r.success)).length : ℚ)
             / (((results.filter (fun r => r.success)).length : ℚ)
                 + ((results.filter (fun r => !r.success)).length : ℚ)))
    ∧ ((analyze_cross_account_results sresults).success_rate =
      if (sresults.filter (fun r => r.success)).length
           + (sresults.filter (fun r => !r.success)).length = 0 then 0
      else 100 * ((sresults.filter (fun r => r.success)).length : ℚ)
             / (((sresults.filter (fun r => r.success)).length : ℚ)
                 + ((sresults.filter (fun r => !r.success)).length : ℚ))) := by
  have key : ∀ (s f : Nat),
      (if 0 < s + f then ((s : ℚ) / (((s + f : Nat)) : ℚ)) * 100 else 0)
        = if s + f = 0 then (0 : ℚ) else 100 * (s : ℚ) / ((s : ℚ) + (f : ℚ)) := by
    intro s f
    by_cases h : s + f = 0
    · simp [h]
    · have hpos : 0 < s + f := Nat.pos_of_ne_zero h
      rw [if_pos hpos, if_neg h]
      push_cast
      rw [div_mul_eq_mul_div, mul_comm]
  constructor
  · have hs := length_filter_split (fun r => r.success) results
    simp only [analyze_cris_results]
    rw [hs]
    exact key _ _
  · have hs := length_filter_split (fun r => r.success) sresults
    have hsplit := shard_success_count_split sresults hacc
    simp only [analyze_cross_account_results]
    rw [hsplit, hs]
    exact key _ _

/-- Claim C1 witness: the formula instantiated at empty result lists gives
the guarded zero rate. -/
theorem success_rate_matches_formula_witness :
    (analyze_cris_results []).success_rate = 0
    ∧ (analyze_cross_account_results []).success_rate = 0 := by
  have h := success_rate_matches_formula [] [] (by simp)
  exact ⟨by simpa using h.1, by simpa using h.2⟩

/-- Claim C2: the mean response time reported by analyze_cris_results is
the arithmetic mean of response_time over the successful results only and
is 0 with no successful result; the per-account means of
analyze_cross_account_results are the arithmetic means over each account
successes; and the four-call scenario with calls one and three succeeding
at latency one and calls two and four throttled reports total 4,
successful 2, failed 2, success rate 50 and mean latency 1. -/
theorem mean_latency_over_successes (results : List ProbeResult)
    (sresults : List ShardProbeResult) :
    ((analyze_cris_results results).avg_response_time =
      (if (results.filter (fun r => r.success)).isEmpty then 0
       else ((results.filter (fun r => r.success)).map (fun r => r.response_time)).sum
              / (((results.filter (fun r => r.success)).length : ℚ))))
    ∧ ((analyze_cross_account_results sresults).primary_avg_time =
      (if ((sresults.filter (fun r => r.account_type == "ACCOUNT1")).filter
             (fun r => r.success)).isEmpty then 0
       else (((sresults.filter (fun r => r.account_type == "ACCOUNT1")).filter
                (fun r => r.success)).map (fun r => r.response_time)).sum
              / ((((sresults.filter (fun r => r.account_type == "ACCOUNT1")).filter
                     (fun r => r.success)).length : ℚ))))
    ∧ ((analyze_cross_account_results sresults).secondary_avg_time =
      (if ((sresults.filter (fun r => r.account_type == "ACCOUNT2")).filter
             (fun r => r.success)).isEmpty then 0
       else (((sresults.filter (fun r => r.account_type == "ACCOUNT2")).filter
                (fun r => r.success)).map (fun r => r.response_time)).sum
              / ((((sresults.filter (fun r => r.account_type == "ACCOUNT2")).filter
                     (fun r => r.success)).length : ℚ))))
    ∧ analyze_cris_results scenarioResults =
        { total_requests := 4, successful := 2, failed := 2,
          success_rate := 50, avg_response_time := 1 } := by
  refine ⟨rfl, ?_, ?_, ?_⟩
  · simp only [analyze_cross_account_results]
    by_cases h : ((sresults.filter (fun r => r.account_type == "ACCOUNT1")).filter
        (fun r => r.success)).length = 0
    · rw [if_neg (not_not_intro h),
        if_pos (by simpa [List.isEmpty_iff_length_eq_zero] using h)]
    · rw [if_pos h, if_neg (by simpa [List.isEmpty_iff_length_eq_zero] using h)]
  · simp only [analyze_cross_account_results]
    by_cases h : ((sresults.filter (fun r => r.account_type == "ACCOUNT2")).filter
        (fun r => r.success)).length = 0
    · rw [if_neg (not_not_intro h),
        if_pos (by simpa [List.isEmpty_iff_length_eq_zero] using h)]
    · rw [if_pos h, if_neg (by simpa [List.isEmpty_iff_length_eq_zero] using h)]
  · simp only [scenarioResults, analyze_cris_results, send_bedrock_request,
      classify_error_cris, CrisStats.mk.injEq]
    norm_num

/-- Claim C3: for every batch size between 1 and 100, every strategy and
every completion order, once the dispatch joins on all workers the
collected results list holds exactly one ProbeResult per dispatched
request, in both the cris and the sharding demo. -/
theorem dispatch_collects_exactly_n (n : Nat) (model_id : String)
    (outcomes : Nat → CallOutcome) (strategy : Strategy) (coin : Nat → Bool)
    (p1 p2 : String) (collected : List ProbeResult) (scollected : List ShardProbeResult)
    (hn1 : 1 ≤ n) (hn2 : n ≤ 100)
    (hperm : collected.Perm (run_cris_dispatch n model_id outcomes))
    (hsperm : scollected.Perm (run_shard_dispatch n strategy coin p1 p2 model_id outcomes)) :
    collected.length = n ∧ scollected.length = n := by
  constructor
  · rw [hperm.length_eq]
    simp [run_cris_dispatch]
  · rw [hsperm.length_eq]
    simp [run_shard_dispatch]

/-- Claim C3 witness: two dispatched calls, one success and one failure,
collected in completion order, give exactly two results in each demo. -/
theorem dispatch_collects_exactly_n_witness :
    (run_cris_dispatch 2 "m" (fun i => if i = 0 then .success 1 "ok" else .failure "x")).length = 2
    ∧ (run_shard_dispatch 2 .roundRobin (fun _ => true) "p" "q" "m"
         (fun i => if i = 0 then .success 1 "ok" else .failure "x")).length = 2 :=
  dispatch_collects_exactly_n 2 "m" (fun i => if i = 0 then .success 1 "ok" else .failure "x")
    .roundRobin (fun _ => true) "p" "q" _ _ (by decide) (by decide)
    (List.Perm.refl _) (List.Perm.refl _)

/-- Claim C4 counterexample: in the sharding poller, with expected count
one for each account, account one returns a complete snapshot on the very
first attempt while account two stays empty; account one has therefore
reached completeness after attempt zero, yet the query trace shows account
one queried again on attempt one, so a partition that reached completeness
is re-queried on a subsequent attempt. -/
theorem completed_partition_requeried :
    slotComplete 1 (shardAttempt (fun _ => some [("use1", 1)]) (fun _ => none) 1 1 0
      ⟨none, none⟩).acc1 = true
    ∧ (1, 1) ∈ (shardPoll (fun _ => some [("use1", 1)]) (fun _ => none) 1 1).queryTrace := by
  exact ⟨by decide, by decide⟩

/-- Claim C4 amended: a snapshot whose summed count is below the expected
count is not accepted as final while retry attempts remain (the cris
poller keeps retrying), and a snapshot whose summed count equals the
expected count is accepted immediately, the loop stopping right there so
the single-partition cris poller never re-queries after completeness; in
the two-partition sharding poller, however, every executed attempt
re-submits the query of every partition with a positive expected count,
so a partition that reached completeness is still re-queried while any
other partition remains incomplete. -/
theorem poller_acceptance_amended (oracle : Nat → Option RegionDist) (expected : Nat)
    (o1 o2 : Nat → Option RegionDist) (e1 e2 : Nat) (k i m : Nat) :
    (k < 4 → (∀ j, j ≤ k → crisQueryComplete expected (oracle j) = false) →
       k + 2 ≤ (crisPoll oracle expected).2)
    ∧ (i < 5 → (∀ j, j < i → crisQueryComplete expected (oracle j) = false) →
        crisQueryComplete expected (oracle i) = true →
        crisPoll oracle expected = (oracle i, i + 1))
    ∧ (0 < e1 → m < (shardPoll o1 o2 e1 e2).attemptsExecuted →
        (m, 1) ∈ (shardPoll o1 o2 e1 e2).queryTrace) := by
  refine ⟨?_, ?_, ?_⟩
  · intro hk hinc
    exact crisPollGo_retries oracle expected 0 5 k none (by omega)
      (fun j hj => by simpa using hinc j hj)
  · intro hi hinc hc
    have := crisPollGo_first_complete oracle expected 0 5 i none hi
      (fun j hj => by simpa using hinc j hj) (by simpa using hc)
    simpa using this
  · intro he hm
    have := shardPollGo_queries o1 o2 e1 e2 0 5 ⟨none, none⟩ m hm he
    simpa using this

/-- Claim C4 amended witness: a constantly empty oracle forces a retry
past the first attempt; a first-attempt complete snapshot of total three
is accepted immediately; and the sharding poller with account one complete
and account two empty still queries account one on attempt one. -/
theorem poller_acceptance_amended_witness :
    2 ≤ (crisPoll (fun _ => none) 3).2
    ∧ crisPoll (fun _ => some [("use1", 3)]) 3 = (some [("use1", 3)], 1)
    ∧ (1, 1) ∈ (shardPoll (fun _ => some [("r", 1)]) (fun _ => none) 1 1).queryTrace := by
  refine ⟨?_, ?_, ?_⟩
  · have := (poller_acceptance_amended (fun _ => none) 3 (fun _ => none) (fun _ => none)
      0 0 0 0 0).1 (by decide) (by decide)
    simpa using this
  · exact (poller_acceptance_amended (fun _ => some [("use1", 3)]) 3 (fun _ => none)
      (fun _ => none) 0 0 0 0 0).2.1 (by decide) (by decide) (by decide)
  · exact (poller_acceptance_amended (fun _ => none) 0 (fun _ => some [("r", 1)])
      (fun _ => none) 1 1 0 0 1).2.2 (by decide) (by decide)

/-- Claim C5: the reconciliation polling loop of either demo executes at
most five attempts, and when no attempt meets the completeness test the
cris loop terminates after exactly five attempts returning the snapshot of
the last attempt, possibly incomplete, rather than looping on. -/
theorem poller_attempt_budget (oracle : Nat → Option RegionDist) (expected : Nat)
    (o1 o2 : Nat → Option RegionDist) (e1 e2 : Nat) :
    (crisPoll oracle expected).2 ≤ 5
    ∧ ((∀ j, j < 5 → crisQueryComplete expected (oracle j) = false) →
        crisPoll oracle expected = (oracle 4, 5))
    ∧ (shardPoll o1 o2 e1 e2).attemptsExecuted ≤ 5 := by
  refine ⟨crisPollGo_attempts_le oracle expected 0 5 none, ?_,
    shardPollGo_attempts_le o1 o2 e1 e2 0 5 ⟨none, none⟩⟩
  intro h
  have := crisPollGo_all_incomplete oracle expected 0 4 none
    (fun j hj => by simpa using h j hj)
  simpa using this

/-- Claim C5 witness: with every query failing, the cris poller stops
after its five attempts holding no snapshot. -/
theorem poller_attempt_budget_witness :
    crisPoll (fun _ => none) 1 = (none, 5) :=
  (poller_attempt_budget (fun _ => none) 1 (fun _ => none) (fun _ => none) 1 1).2.1
    (by decide)

/-- Claim C6 counterexample: the message AccessDenied contains the
substring AccessDenied, yet both scripts store the generic Error kind for
it, not AccessDenied; only the cris display label is sanitized to Access
Denied. -/
theorem accessdenied_classified_generic :
    strContainsSub "AccessDenied" "AccessDenied" = true
    ∧ classify_error_cris "AccessDenied" = "Error"
    ∧ classify_error_shard "AccessDenied" = "Error"
    ∧ sanitized_error_cris "AccessDenied" = "Access Denied"
    ∧ ("Error" : String) ≠ "AccessDenied" := by
  refine ⟨by decide, by decide, by decide, by decide, by decide⟩

/-- Claim C6 amended: a message containing ThrottlingException classifies
as the Throttled kind in both scripts; every message containing neither
ThrottlingException nor ServiceQuota, which includes any message
containing AccessDenied, classifies as the generic Error kind. -/
theorem error_classification_amended (msg : String) :
    (strContainsSub msg "ThrottlingException" = true →
       classify_error_cris msg = "ThrottlingException"
         ∧ classify_error_shard msg = "ThrottlingException")
    ∧ (strContainsSub msg "ThrottlingException" = false →
       strContainsSub msg "ServiceQuota" = false →
       classify_error_cris msg = "Error" ∧ classify_error_shard msg = "Error") := by
  constructor
  · intro h
    constructor <;> simp [classify_error_cris, classify_error_shard, h]
  · intro h1 h2
    constructor <;> simp [classify_error_cris, classify_error_shard, h1, h2]

/-- Claim C6 amended witness: a throttling message is classified as
Throttled by both scripts. -/
theorem error_classification_amended_witness :
    classify_error_cris "ThrottlingException: rate exceeded" = "ThrottlingException"
    ∧ classify_error_shard "ThrottlingException: rate exceeded" = "ThrottlingException" :=
  (error_classification_amended "ThrottlingException: rate exceeded").1 (by decide)

/-- Claim C7: under the fixed-split strategy with twenty requests a
sequence id maps to the primary account exactly when it is below ten, so
ids zero through nine go to partition one and ids ten through nineteen to
partition two; under the round-robin strategy every even sequence id maps
to the primary account. -/
theorem partition_assignment (coin : Nat → Bool) (n id : Nat) :
    (id < 20 → (usePrimary .split 20 coin id = true ↔ id < 10))
    ∧ (id % 2 = 0 → usePrimary .roundRobin n coin id = true) := by
  constructor
  · intro _
    simp [usePrimary]
  · intro h
    simp [usePrimary, h]

/-- Claim C7 witness: id nine goes to the primary account and id ten does
not under fixed split of twenty, and id four goes primary under
round-robin. -/
theorem partition_assignment_witness :
    usePrimary .split 20 (fun _ => true) 9 = true
    ∧ usePrimary .split 20 (fun _ => true) 10 ≠ true
    ∧ usePrimary .roundRobin 20 (fun _ => true) 4 = true := by
  refine ⟨?_, ?_, ?_⟩
  · exact ((partition_assignment (fun _ => true) 20 9).1 (by decide)).mpr (by decide)
  · intro hc
    exact absurd (((partition_assignment (fun _ => true) 20 10).1 (by decide)).mp hc)
      (by decide)
  · exact (partition_assignment (fun _ => true) 20 4).2 (by decide)

/-- Claim C8 counterexample: at a requested batch size of twenty-one the
cris demo passes twenty-one to max_workers, not the capped twenty, so its
worker-pool size is not min of the batch size and twenty. -/
theorem cris_pool_uncapped :
    cris_max_workers 21 = 21 ∧ min 21 20 = 20 ∧ cris_max_workers 21 ≠ min 21 20 := by
  refine ⟨rfl, rfl, by decide⟩

/-- Claim C8 amended: the sharding demo worker pool is min of the batch
size and twenty, but the cris demo worker pool equals the batch size with
no ceiling, so the two differ for every batch size above twenty. -/
theorem worker_pool_sizes_amended (n : Nat) :
    shard_max_workers n = min n 20
    ∧ cris_max_workers n = n
    ∧ (20 < n → cris_max_workers n ≠ shard_max_workers n) := by
  refine ⟨rfl, rfl, ?_⟩
  intro h
  simp only [cris_max_workers, shard_max_workers]
  omega

/-- Claim C8 amended witness: at batch size twenty-one the two pool sizes
differ. -/
theorem worker_pool_sizes_amended_witness :
    cris_max_workers 21 ≠ shard_max_workers 21 :=
  (worker_pool_sizes_amended 21).2.2 (by decide)

/-- Claim C9: a request count outside one to one hundred makes the cris
and sharding mains exit with status one before any dispatch, and in loop
mode an interval below five seconds makes the load-balancing main exit
with status one before any dispatch. -/
theorem cli_validation_rejects (requests interval : Int) (strategy : Strategy) :
    ((requests < 1 ∨ 100 < requests) →
       cris_main requests = .exitWithError 1
         ∧ sharding_main requests strategy = .exitWithError 1)
    ∧ (interval < 5 → lb_main true interval = .exitWithError 1) := by
  constructor
  · intro h
    constructor
    · unfold cris_main
      rcases h with h | h
      · rw [if_pos h]
      · rw [if_neg (by omega), if_pos (by omega)]
    · unfold sharding_main
      rcases h with h | h
      · rw [if_pos h]
      · rw [if_neg (by omega), if_pos (by omega)]
  · intro h
    simp [lb_main, h]

/-- Claim C9 witness: a zero request count is rejected by both scripts and
a four second interval is rejected in loop mode. -/
theorem cli_validation_rejects_witness :
    (cris_main 0 = .exitWithError 1 ∧ sharding_main 0 .roundRobin = .exitWithError 1)
    ∧ lb_main true 4 = .exitWithError 1 :=
  ⟨(cli_validation_rejects 0 4 .roundRobin).1 (Or.inl (by decide)),
   (cli_validation_rejects 0 4 .roundRobin).2 (by decide)⟩

/-- Claim C10 counterexample: a failed load-balancing probe stores the
literal string error in model_used, which is not the None of the claim,
even though its success flag is false and its response time zero. -/
theorem lb_failure_model_used_not_none :
    (send_request_lb 2 (.failure "boom") "unknown").model_used = some "error"
    ∧ some "error" ≠ (none : Option String)
    ∧ (send_request_lb 2 (.failure "boom") "unknown").success = false
    ∧ (send_request_lb 2 (.failure "boom") "unknown").response_time = 0 := by
  refine ⟨rfl, by decide, rfl, rfl⟩

/-- Claim C10 amended: every failed probe call yields success false and
response time zero in all three scripts; the cris and sharding results
store no model, while the load-balancing result stores the literal string
error in model_used; consequently, on any result list whose failed entries
carry zero response time, summing response times over all entries equals
summing over the successful ones only. -/
theorem failure_result_invariant_amended (request_id : Nat)
    (model_id profile account msg mresp : String) (l : List ProbeResult)
    (h : ∀ r ∈ l, r.success = false → r.response_time = 0) :
    (send_bedrock_request request_id model_id (.failure msg)).success = false
    ∧ (send_bedrock_request request_id model_id (.failure msg)).response_time = 0
    ∧ (send_bedrock_request request_id model_id (.failure msg)).model_used = none
    ∧ (send_bedrock_request_shard request_id model_id profile account
         (.failure msg)).success = false
    ∧ (send_bedrock_request_shard request_id model_id profile account
         (.failure msg)).response_time = 0
    ∧ (send_bedrock_request_shard request_id model_id profile account
         (.failure msg)).model_used = none
    ∧ (send_request_lb request_id (.failure msg) mresp).success = false
    ∧ (send_request_lb request_id (.failure msg) mresp).response_time = 0
    ∧ (send_request_lb request_id (.failure msg) mresp).model_used = some "error"
    ∧ (l.map (fun r => r.response_time)).sum
        = ((l.filter (fun r => r.success)).map (fun r => r.response_time)).sum :=
  ⟨rfl, rfl, rfl, rfl, rfl, rfl, rfl, rfl, rfl, sum_response_time_filter l h⟩

/-- Claim C10 amended witness: on a one-failure list the total response
time sum equals the sum over the empty success set. -/
theorem failure_result_invariant_amended_witness :
    ([send_bedrock_request 1 "m" (.failure "x")].map (fun r => r.response_time)).sum
      = (([send_bedrock_request 1 "m" (.failure "x")].filter
           (fun r => r.success)).map (fun r => r.response_time)).sum :=
  (failure_result_invariant_amended 1 "m" "p" "a" "x" "mm"
    [send_bedrock_request 1 "m" (.failure "x")] (by decide)).2.2.2.2.2.2.2.2.2

end ResilientLLM
